import Mathlib

/-!  Formal model of the MME-Unify generation evaluation pipeline
     (src/evaluate/Evaluate_Generation_Overall.py).  External model calls
     (CLIP, LPIPS, Inception and ResNet feature extraction, video frame
     sampling) are external collaborators per the specification; they are
     represented as per-sample oracle inputs.  Every routing, validation,
     scoring and aggregation decision of the Python source is transcribed
     directly.  Python floats are modelled as exact rationals extended with
     positive infinity where the source manipulates float inf. -/

namespace MME

/-- Association list lookup by string key, mirroring Python dict access. -/
def alookup {α : Type} (k : String) : List (String × α) → Option α
  | [] => none
  | (k2, v) :: rest => if k = k2 then some v else alookup k rest

/-- Arithmetic mean of a list of rationals (np.mean of a nonempty list). -/
def qmean (l : List ℚ) : ℚ := l.sum / l.length

/-- A Python float as used by the metric pipeline: a finite value (an exact
    rational) or positive infinity (float inf). -/
inductive FloatV where
  | fin (q : ℚ)
  | inf
deriving DecidableEq

/-- Comparison on modelled floats, with every finite value below infinity. -/
def FloatV.fle : FloatV → FloatV → Bool
  | .fin a, .fin b => decide (a ≤ b)
  | .fin _, .inf => true
  | .inf, .fin _ => false
  | .inf, .inf => true

/-- Addition on modelled floats: infinity absorbs. -/
def FloatV.add : FloatV → FloatV → FloatV
  | .fin a, .fin b => .fin (a + b)
  | _, _ => .inf

/-- Mean of a list of modelled floats (np.mean): infinite when any term is. -/
def fvMean (l : List FloatV) : FloatV :=
  match l.foldl FloatV.add (.fin 0) with
  | .fin s => .fin (s / l.length)
  | .inf => .inf

/-- VideoMetricsCalculator.normalize_fvd with max_value fixed at its default
    1000: norm_value = 1 - fvd_score/1000, then max(0, min(1, norm_value)).
    An infinite distance propagates through the arithmetic to negative
    infinity and clamps to 0, as under IEEE float semantics. -/
def normalize_fvd (fvd_score : FloatV) : ℚ :=
  match fvd_score with
  | .fin q => max 0 (min 1 (1 - q / 1000))
  | .inf => 0

/-- Modelled from the spec: VideoMetricsCalculator.normalize_fid is invoked
    by process_video_prediction but is not defined anywhere under src; the
    spec states one shared distance normalization rule
    clamp(1 - distance/1000, 0, 1) for both FID style and FVD style
    distances, so normalize_fid is modelled identically to normalize_fvd. -/
def normalize_fid (fid_score : FloatV) : ℚ := normalize_fvd fid_score

/-- A numpy array as passed to calculate_fid: one or two dimensional. -/
inductive NpArr where
  | d1 (v : List ℚ)
  | d2 (m : List (List ℚ))
deriving DecidableEq

/-- The reshape(1, -1) step of calculate_fid: a 1-D array becomes a single
    row; a 2-D array is unchanged. -/
def NpArr.reshapeRows : NpArr → List (List ℚ)
  | .d1 v => [v]
  | .d2 m => m

/-- Componentwise sum of the rows of a rectangular 2-D array. -/
def colSums : List (List ℚ) → List ℚ
  | [] => []
  | [row] => row
  | row :: rest => (row.zip (colSums rest)).map (fun p => p.1 + p.2)

/-- Column means of a 2-D array (np.mean(X, axis=0)). -/
def colMeans (X : List (List ℚ)) : List ℚ :=
  (colSums X).map (fun s => s / X.length)

/-- Rows of X with the column means subtracted. -/
def centerRows (X : List (List ℚ)) : List (List ℚ) :=
  let mu := colMeans X
  X.map (fun row => (row.zip mu).map (fun p => p.1 - p.2))

/-- np.cov(X, rowvar=False): unbiased sample covariance of the columns. -/
def covm (X : List (List ℚ)) : List (List ℚ) :=
  let T := (centerRows X).transpose
  T.map (fun ci => T.map (fun cj =>
    ((ci.zip cj).map (fun p => p.1 * p.2)).sum / ((X.length : ℚ) - 1)))

/-- Matrix product (np.dot on 2-D arrays). -/
def matMul (A B : List (List ℚ)) : List (List ℚ) :=
  let BT := B.transpose
  A.map (fun row => BT.map (fun col => ((row.zip col).map (fun p => p.1 * p.2)).sum))

/-- Elementwise matrix sum. -/
def matAdd (A B : List (List ℚ)) : List (List ℚ) :=
  (A.zip B).map (fun p => (p.1.zip p.2).map (fun q => q.1 + q.2))

/-- Scalar multiple of a matrix. -/
def matScale (c : ℚ) (A : List (List ℚ)) : List (List ℚ) :=
  A.map (fun row => row.map (fun x => c * x))

/-- np.trace: sum of the diagonal entries. -/
def trace (A : List (List ℚ)) : ℚ :=
  (A.enum.map (fun p => p.2.getD p.1 0)).sum

/-- np.sum(diff ** 2) for diff = mu1 - mu2: squared Euclidean distance
    between the column means of the two feature matrices. -/
def meanSqDist (r g : List (List ℚ)) : ℚ :=
  (((colMeans r).zip (colMeans g)).map (fun p => (p.1 - p.2) ^ 2)).sum

/-- VideoMetricsCalculator.calculate_fid.  The scipy matrix square root is
    an external numeric routine, passed as an oracle that may fail; the
    iscomplexobj real-part step is folded into the oracle, which returns the
    real matrix used afterwards.  Any failure inside the try block is caught
    by the except handler and yields float inf. -/
def calculate_fid (sqrtm : List (List ℚ) → Except Unit (List (List ℚ)))
    (real_features gen_features : NpArr) : FloatV :=
  let r := real_features.reshapeRows
  let g := gen_features.reshapeRows
  if r.length = 1 ∨ g.length = 1 then
    .fin (meanSqDist r g)
  else
    let sigma1 := covm r
    let sigma2 := covm g
    match sqrtm (matMul sigma1 sigma2) with
    | .error _ => .inf
    | .ok covmean =>
        .fin (meanSqDist r g + trace (matAdd (matAdd sigma1 sigma2) (matScale (-2) covmean)))

/-- VideoMetricsCalculator.calculate_fvd: delegates to calculate_fid. -/
def calculate_fvd (sqrtm : List (List ℚ) → Except Unit (List (List ℚ)))
    (real_features gen_features : NpArr) : FloatV :=
  calculate_fid sqrtm real_features gen_features

/-- VideoMetricsCalculator._validate_features: both arrays must be 2-D with
    second dimension 2048.  Entries are modelled as exact rationals, hence
    finite, so the np.isfinite check is identically true in the model. -/
def validate_features (real_features gen_features : NpArr) : Bool :=
  match real_features, gen_features with
  | .d2 r, .d2 g =>
      r.all (fun row => row.length == 2048) && g.all (fun row => row.length == 2048)
  | _, _ => false

/-- The fixed image task names enumerated in calculate_task_scores. -/
def image_task_names : List String :=
  ["Fine-Grained_Image_Reconstruction", "Text-Image_Editing", "Text-Image_Generation"]

/-- The fixed video task names enumerated in calculate_task_scores. -/
def video_task_names : List String :=
  ["image_to_video", "text_to_video", "video_prediction"]

/-- The parts of the results dictionary read by calculate_task_scores:
    whether the image_tasks key and its category_scores key are present, the
    category_scores mapping (task name to metric dict), and the video part of
    the top level dict (task name to the optional average_score value). -/
structure TSInput where
  image_tasks_present : Bool
  category_scores_present : Bool
  category_scores : List (String × List (String × ℚ))
  video : List (String × Option ℚ)

/-- The value produced by calculate_task_scores. -/
structure TaskScores where
  task_scores : List (String × ℚ)
  generation_score : ℚ

/-- Per image task score inside calculate_task_scores: the mean of the
    metric values of that task excluding the score key, 0.0 when the task is
    absent or carries no other metric. -/
def imageTaskScore (scores : List (String × List (String × ℚ))) (task : String) : ℚ :=
  match alookup task scores with
  | none => 0
  | some ms =>
      let metrics := (ms.filter (fun kv => kv.1 ≠ "score")).map Prod.snd
      if metrics = [] then 0 else metrics.sum / metrics.length

/-- calculate_task_scores: per task scores over the fixed six task list and
    the overall generation_score as the mean of all collected scores. -/
def calculate_task_scores (r : TSInput) : TaskScores :=
  let imgScores :=
    if r.image_tasks_present && r.category_scores_present then
      image_task_names.map (fun t => (t, imageTaskScore r.category_scores t))
    else
      image_task_names.map (fun t => (t, (0 : ℚ)))
  let vidScores := video_task_names.map (fun t =>
    (t, match alookup t r.video with
        | some (some q) => q
        | _ => (0 : ℚ)))
  let all := imgScores ++ vidScores
  let allScores := all.map Prod.snd
  { task_scores := all
    generation_score := if allScores = [] then 0 else allScores.sum / allScores.length }

/-- The output field of a record, as inspected by the evaluation loops:
    absent; present but falsy; a (nonempty) string; a nonempty dict holding
    an output_image key; a nonempty dict without that key; any other truthy
    value. -/
inductive PyOutput where
  | missing
  | falsy
  | str (s : String)
  | dictImg (s : String)
  | dictNoImg
  | other
deriving DecidableEq

/-- Truthiness and presence of the output field, as tested by the check
    output not in item or not item output. -/
def PyOutput.present : PyOutput → Bool
  | .missing => false
  | .falsy => false
  | _ => true

/-- The output path extracted by evaluate_image_tasks: a dict with an
    output_image key yields that value, a string yields itself, every other
    shape is skipped. -/
def outputPath : PyOutput → Option String
  | .dictImg s => some s
  | .str s => some s
  | _ => none

/-- The video path read as item output by the video loops: os.path.isabs
    raises unless the value is a string, and that exception is caught by the
    outer per item handler. -/
def PyOutput.asPath : PyOutput → Option String
  | .str s => some s
  | _ => none

/-- Oracle for one evaluate_reconstruction call: whether the two
    load_and_preprocess_image calls succeed (they catch their own errors and
    return None), whether the LPIPS model call raises, and the raw LPIPS
    model output item value. -/
structure RecOracle where
  loadOutputOk : Bool
  loadTargetOk : Bool
  callRaise : Bool
  lpipsValue : ℚ
deriving DecidableEq

/-- Oracle for one evaluate_editing or evaluate_generation call: image
    loading outcomes, whether a CLIP or torch call raises, the image to
    image cosine similarity, and the image to text logit. -/
structure ClipOracle where
  loadOutputOk : Bool
  loadTargetOk : Bool
  callRaise : Bool
  cosSim : ℚ
  logitVal : ℚ
deriving DecidableEq

/-- The outcome of a Python call that may raise, return None, or return a
    value. -/
inductive ExcOpt (α : Type) where
  | raised : ExcOpt α
  | ret : Option α → ExcOpt α
deriving DecidableEq

/-- Whether an outcome is an exception. -/
def ExcOpt.isRaised {α : Type} : ExcOpt α → Bool
  | .raised => true
  | .ret _ => false

/-- ImageEvaluator.evaluate_reconstruction: None when either image fails to
    load; otherwise the 1-LPIPS score 100 - lpips*100 as both the lpips
    metric and the score. -/
def evaluate_reconstruction (o : RecOracle) : ExcOpt (List (String × ℚ)) :=
  if !o.loadOutputOk || !o.loadTargetOk then .ret none
  else if o.callRaise then .raised
  else
    let lpips_score := 100 - o.lpipsValue * 100
    .ret (some [("lpips", lpips_score), ("score", lpips_score)])

/-- ImageEvaluator.evaluate_editing: None when either image fails to load;
    otherwise clip_i = cosine similarity times 100, clip_t = the image text
    logit, score = their average. -/
def evaluate_editing (o : ClipOracle) : ExcOpt (List (String × ℚ)) :=
  if !o.loadOutputOk || !o.loadTargetOk then .ret none
  else if o.callRaise then .raised
  else
    let clip_i := o.cosSim * 100
    let clip_t := o.logitVal
    let avg_score := (clip_i + clip_t) / 2
    .ret (some [("clip_i", clip_i), ("clip_t", clip_t), ("score", avg_score)])

/-- ImageEvaluator.evaluate_generation: same computation as
    evaluate_editing, transcribed from its own source body. -/
def evaluate_generation (o : ClipOracle) : ExcOpt (List (String × ℚ)) :=
  if !o.loadOutputOk || !o.loadTargetOk then .ret none
  else if o.callRaise then .raised
  else
    let clip_i := o.cosSim * 100
    let clip_t := o.logitVal
    let avg_score := (clip_i + clip_t) / 2
    .ret (some [("clip_i", clip_i), ("clip_t", clip_t), ("score", avg_score)])

/-- A dataset record as inspected by evaluate_image_tasks: its category and
    error fields, the shape of its output field, whether the nested data
    image and data edited_image key chains resolve (a missing key raises
    KeyError inside the per item try block), and the oracles for the
    evaluator calls made on it. -/
structure ImgItem where
  category : String
  error : Int
  output : PyOutput
  hasDataImage : Bool
  hasDataEditedImage : Bool
  recOracle : RecOracle
  clipOracle : ClipOracle
deriving DecidableEq

/-- The mutable state of the evaluate_image_tasks loop: the processed and
    skipped counters and the categories defaultdict, an insertion ordered
    association list from category to the result dicts appended to it. -/
structure ImgState where
  processed_samples : ℕ
  skipped_samples : ℕ
  categories : List (String × List (List (String × ℚ)))
deriving DecidableEq

/-- Append to a defaultdict(list) entry: extends the existing list for the
    key, or inserts the key at the end with a singleton list. -/
def dappend {α : Type} (key : String) (v : α) :
    List (String × List α) → List (String × List α)
  | [] => [(key, [v])]
  | (k, vs) :: rest =>
      if key = k then (k, vs ++ [v]) :: rest else (k, vs) :: dappend key v rest

/-- The loop body of evaluate_image_tasks for one record: error flag check,
    output shape check, category routing, KeyError on the required data
    field, then the evaluator call whose exception is caught (skipped) and
    whose None result leaves all counters untouched. -/
def imgStep (st : ImgState) (item : ImgItem) : ImgState :=
  if item.error ≠ 0 then
    { st with skipped_samples := st.skipped_samples + 1 }
  else
    match outputPath item.output with
    | none => { st with skipped_samples := st.skipped_samples + 1 }
    | some _ =>
      if item.category = "Fine-Grained_Image_Reconstruction" then
        if !item.hasDataImage then { st with skipped_samples := st.skipped_samples + 1 }
        else
          match evaluate_reconstruction item.recOracle with
          | .raised => { st with skipped_samples := st.skipped_samples + 1 }
          | .ret none => st
          | .ret (some r) =>
              { st with processed_samples := st.processed_samples + 1,
                        categories := dappend item.category r st.categories }
      else if item.category = "Text-Image_Editing" then
        if !item.hasDataEditedImage then { st with skipped_samples := st.skipped_samples + 1 }
        else
          match evaluate_editing item.clipOracle with
          | .raised => { st with skipped_samples := st.skipped_samples + 1 }
          | .ret none => st
          | .ret (some r) =>
              { st with processed_samples := st.processed_samples + 1,
                        categories := dappend item.category r st.categories }
      else if item.category = "Text-Image_Generation" then
        if !item.hasDataImage then { st with skipped_samples := st.skipped_samples + 1 }
        else
          match evaluate_generation item.clipOracle with
          | .raised => { st with skipped_samples := st.skipped_samples + 1 }
          | .ret none => st
          | .ret (some r) =>
              { st with processed_samples := st.processed_samples + 1,
                        categories := dappend item.category r st.categories }
      else st

/-- The aggregate computed for one nonempty category list: the metric keys
    of its first result dict, each averaged over all collected result dicts
    of that category; an empty list yields none (the continue branch). -/
def aggregateOf (items : List (List (String × ℚ))) : Option (List (String × ℚ)) :=
  match items with
  | [] => none
  | r0 :: _ =>
      some (r0.map (fun kv =>
        (kv.1, qmean (items.map (fun r => (alookup kv.1 r).getD 0)))))

/-- The per category averaging pass of evaluate_image_tasks: for each
    nonempty category list, the metric keys of its first result dict are
    each averaged over the result dicts collected for that category. -/
def categoryScores (cats : List (String × List (List (String × ℚ)))) :
    List (String × List (String × ℚ)) :=
  cats.filterMap (fun p => (aggregateOf p.2).map (fun m => (p.1, m)))

/-- The value assembled by evaluate_image_tasks. -/
structure ImgResults where
  total_samples : ℕ
  processed_samples : ℕ
  skipped_samples : ℕ
  categories : List (String × List (List (String × ℚ)))
  category_scores : List (String × List (String × ℚ))
deriving DecidableEq

/-- evaluate_image_tasks: total = length of the full record list, then one
    imgStep per record in order, then the per category averaging pass. -/
def evaluate_image_tasks (data : List ImgItem) : ImgResults :=
  let st := data.foldl imgStep ⟨0, 0, []⟩
  { total_samples := data.length
    processed_samples := st.processed_samples
    skipped_samples := st.skipped_samples
    categories := st.categories
    category_scores := categoryScores st.categories }

instance {ε α : Type} [DecidableEq ε] [DecidableEq α] : DecidableEq (Except ε α) := fun a b =>
  match a, b with
  | .error e1, .error e2 =>
      if h : e1 = e2 then .isTrue (congrArg Except.error h)
      else .isFalse (fun hc => h (Except.error.inj hc))
  | .ok v1, .ok v2 =>
      if h : v1 = v2 then .isTrue (congrArg Except.ok h)
      else .isFalse (fun hc => h (Except.ok.inj hc))
  | .error _, .ok _ => .isFalse (fun hc => Except.noConfusion hc)
  | .ok _, .error _ => .isFalse (fun hc => Except.noConfusion hc)

/-- Oracle for one image_to_video record: whether extract_frames_for_clip
    raises, the per frame CLIPMetrics.calculate_similarity outcomes (that
    call catches its own errors and returns None), whether the video tensor
    loading or ResNet feature extraction raises, the two extracted feature
    arrays, and the scipy sqrtm outcome used inside calculate_fvd. -/
structure I2VOracle where
  framesRaise : Bool
  frameResults : List (Option ℚ)
  loadRaise : Bool
  refFeatures : NpArr
  genFeatures : NpArr
  sqrtmResult : Except Unit (List (List ℚ))
deriving DecidableEq

/-- Oracle for one video_prediction record.  Modelled from the spec:
    extract_inception_features_batch is invoked by process_video_prediction
    but is not defined anywhere under src; the spec treats Inception feature
    extraction as an external MetricProvider, so those calls are oracle
    fields (failure flags plus the returned frame feature arrays).  The
    remaining fields mirror the frame sampling, video tensor loading and
    ResNet feature extraction calls and the two sqrtm outcomes. -/
structure VPOracle where
  incepSourceRaise : Bool
  framesRaise : Bool
  incepFramesRaise : Bool
  refFrameFeatures : NpArr
  genFrameFeatures : NpArr
  fidSqrtm : Except Unit (List (List ℚ))
  loadRaise : Bool
  refFeatures : NpArr
  genFeatures : NpArr
  fvdSqrtm : Except Unit (List (List ℚ))
deriving DecidableEq

/-- A dataset record as inspected by the three video loops: the id and
    category fields, the upstream error flag, presence of the nested data
    image and data video keys, the output field shape, presence of the
    Text_Prompt key, and the oracles for the external calls each loop would
    make on it. -/
structure VidItem where
  id : String
  category : String
  error : Int
  hasData : Bool
  dataHasImage : Bool
  dataHasVideo : Bool
  output : PyOutput
  hasTextPrompt : Bool
  i2v : I2VOracle
  t2vFramesRaise : Bool
  t2vFrameResults : List (Option ℚ)
  vp : VPOracle
deriving DecidableEq

/-- VideoMetricsCalculator._validate_item: data with image and video keys,
    a present truthy output, and a Text_Prompt key.  The error flag is not
    consulted. -/
def validate_item (item : VidItem) : Bool :=
  item.hasData && item.dataHasImage && item.dataHasVideo &&
    item.output.present && item.hasTextPrompt

/-- VideoMetricsCalculator._validate_t2v_item: data with an image key, a
    present truthy output, and a Text_Prompt key.  The error flag is not
    consulted. -/
def validate_t2v_item (item : VidItem) : Bool :=
  item.hasData && item.dataHasImage && item.output.present && item.hasTextPrompt

/-- One sample_scores entry of process_image_to_video. -/
structure I2VEntry where
  id : String
  fvd : FloatV
  norm_fvd : ℚ
  clip_t : ℚ
  score : ℚ
deriving DecidableEq

/-- The zero score entry appended on every skip path of
    process_image_to_video. -/
def i2vZeroEntry (id : String) : I2VEntry :=
  { id := id, fvd := .inf, norm_fvd := 0, clip_t := 0, score := 0 }

/-- The running state of the process_image_to_video loop. -/
structure I2VState where
  processed_samples : ℕ
  skipped_samples : ℕ
  sample_scores : List I2VEntry
deriving DecidableEq

/-- The loop body of process_image_to_video for one record: validation,
    the output path read (os.path.isabs raises on a non string output and
    the outer handler appends a zero entry), the inner try block over frame
    extraction, loading and feature extraction, then the feature validation
    and nonempty CLIP score condition guarding the scored entry. -/
def i2vStep (st : I2VState) (item : VidItem) : I2VState :=
  if !validate_item item then
    { processed_samples := st.processed_samples,
      skipped_samples := st.skipped_samples + 1,
      sample_scores := st.sample_scores ++ [i2vZeroEntry item.id] }
  else
    match item.output.asPath with
    | none =>
        { processed_samples := st.processed_samples,
          skipped_samples := st.skipped_samples + 1,
          sample_scores := st.sample_scores ++ [i2vZeroEntry item.id] }
    | some _ =>
      if item.i2v.framesRaise || item.i2v.loadRaise then
        { processed_samples := st.processed_samples,
          skipped_samples := st.skipped_samples + 1,
          sample_scores := st.sample_scores ++ [i2vZeroEntry item.id] }
      else
        let frame_clip_scores := item.i2v.frameResults.filterMap id
        if validate_features item.i2v.refFeatures item.i2v.genFeatures &&
            !frame_clip_scores.isEmpty then
          let fvd_score :=
            calculate_fvd (fun _ => item.i2v.sqrtmResult) item.i2v.refFeatures item.i2v.genFeatures
          let norm_fvd := normalize_fvd fvd_score
          let avg_clip_t := qmean frame_clip_scores
          let final_score := (norm_fvd + avg_clip_t) / 2
          { processed_samples := st.processed_samples + 1,
            skipped_samples := st.skipped_samples,
            sample_scores := st.sample_scores ++
              [{ id := item.id, fvd := fvd_score, norm_fvd := norm_fvd,
                 clip_t := avg_clip_t, score := final_score }] }
        else
          { processed_samples := st.processed_samples,
            skipped_samples := st.skipped_samples + 1,
            sample_scores := st.sample_scores ++ [i2vZeroEntry item.id] }

/-- The value assembled by process_image_to_video. -/
structure I2VResults where
  total_samples : ℕ
  processed_samples : ℕ
  skipped_samples : ℕ
  sample_scores : List I2VEntry
  average_score : ℚ
deriving DecidableEq

/-- process_image_to_video: filters the records whose category equals
    Conditional_Image_to_Video_Generation, folds the loop body over them,
    then sets average_score to the mean score over all appended entries
    (0.0 when there are none). -/
def process_image_to_video (data : List VidItem) : I2VResults :=
  let i2v_data := data.filter
    (fun item => item.category == "Conditional_Image_to_Video_Generation")
  let st := i2v_data.foldl i2vStep ⟨0, 0, []⟩
  { total_samples := i2v_data.length
    processed_samples := st.processed_samples
    skipped_samples := st.skipped_samples
    sample_scores := st.sample_scores
    average_score :=
      if st.sample_scores.isEmpty then 0
      else qmean (st.sample_scores.map I2VEntry.score) }

/-- One sample_scores entry of process_text_to_video. -/
structure T2VEntry where
  id : String
  clip_t : ℚ
  score : ℚ
deriving DecidableEq

/-- The zero score entry appended on every skip path of
    process_text_to_video. -/
def t2vZeroEntry (id : String) : T2VEntry := { id := id, clip_t := 0, score := 0 }

/-- The running state of the process_text_to_video loop. -/
structure T2VState where
  processed_samples : ℕ
  skipped_samples : ℕ
  sample_scores : List T2VEntry
deriving DecidableEq

/-- The loop body of process_text_to_video for one record: validation, the
    output path read, frame extraction, then the nonempty CLIP score
    condition; the score of a processed entry is the mean per frame CLIP
    similarity itself. -/
def t2vStep (st : T2VState) (item : VidItem) : T2VState :=
  if !validate_t2v_item item then
    { processed_samples := st.processed_samples,
      skipped_samples := st.skipped_samples + 1,
      sample_scores := st.sample_scores ++ [t2vZeroEntry item.id] }
  else
    match item.output.asPath with
    | none =>
        { processed_samples := st.processed_samples,
          skipped_samples := st.skipped_samples + 1,
          sample_scores := st.sample_scores ++ [t2vZeroEntry item.id] }
    | some _ =>
      if item.t2vFramesRaise then
        { processed_samples := st.processed_samples,
          skipped_samples := st.skipped_samples + 1,
          sample_scores := st.sample_scores ++ [t2vZeroEntry item.id] }
      else
        let frame_clip_scores := item.t2vFrameResults.filterMap id
        if !frame_clip_scores.isEmpty then
          let avg_clip_t := qmean frame_clip_scores
          { processed_samples := st.processed_samples + 1,
            skipped_samples := st.skipped_samples,
            sample_scores := st.sample_scores ++
              [{ id := item.id, clip_t := avg_clip_t, score := avg_clip_t }] }
        else
          { processed_samples := st.processed_samples,
            skipped_samples := st.skipped_samples + 1,
            sample_scores := st.sample_scores ++ [t2vZeroEntry item.id] }

/-- The value assembled by process_text_to_video. -/
structure T2VResults where
  total_samples : ℕ
  processed_samples : ℕ
  skipped_samples : ℕ
  sample_scores : List T2VEntry
  average_score : ℚ
deriving DecidableEq

/-- process_text_to_video: filters the records whose category equals
    Text-to-Video_Generation, folds the loop body over them, then sets
    average_score to the mean score over all appended entries. -/
def process_text_to_video (data : List VidItem) : T2VResults :=
  let t2v_data := data.filter (fun item => item.category == "Text-to-Video_Generation")
  let st := t2v_data.foldl t2vStep ⟨0, 0, []⟩
  { total_samples := t2v_data.length
    processed_samples := st.processed_samples
    skipped_samples := st.skipped_samples
    sample_scores := st.sample_scores
    average_score :=
      if st.sample_scores.isEmpty then 0
      else qmean (st.sample_scores.map T2VEntry.score) }

/-- One sample_scores entry of process_video_prediction. -/
structure VPEntry where
  id : String
  fvd : FloatV
  norm_fvd : ℚ
  fid : FloatV
  norm_fid : ℚ
  score : ℚ
deriving DecidableEq

/-- The zero score entry appended on every skip path of
    process_video_prediction. -/
def vpZeroEntry (id : String) : VPEntry :=
  { id := id, fvd := .inf, norm_fvd := 0, fid := .inf, norm_fid := 0, score := 0 }

/-- The running state of the process_video_prediction loop, including the
    separate fid_scores list. -/
structure VPState where
  processed_samples : ℕ
  skipped_samples : ℕ
  sample_scores : List VPEntry
  fid_scores : List FloatV
deriving DecidableEq

/-- The loop body of process_video_prediction for one record: validation,
    the output path read, the Inception feature and frame extraction stage
    (whose failure skips before the fid_scores append), the FID computation
    and its fid_scores append, the video loading stage (whose failure skips
    after that append), then the FVD feature validation with the documented
    fallback to the FID only score when the FID value is finite. -/
def vpStep (st : VPState) (item : VidItem) : VPState :=
  if !validate_item item then
    { processed_samples := st.processed_samples,
      skipped_samples := st.skipped_samples + 1,
      sample_scores := st.sample_scores ++ [vpZeroEntry item.id],
      fid_scores := st.fid_scores }
  else
    match item.output.asPath with
    | none =>
        { processed_samples := st.processed_samples,
          skipped_samples := st.skipped_samples + 1,
          sample_scores := st.sample_scores ++ [vpZeroEntry item.id],
          fid_scores := st.fid_scores }
    | some _ =>
      if item.vp.incepSourceRaise || item.vp.framesRaise || item.vp.incepFramesRaise then
        { processed_samples := st.processed_samples,
          skipped_samples := st.skipped_samples + 1,
          sample_scores := st.sample_scores ++ [vpZeroEntry item.id],
          fid_scores := st.fid_scores }
      else
        let fid_score :=
          calculate_fid (fun _ => item.vp.fidSqrtm) item.vp.refFrameFeatures item.vp.genFrameFeatures
        let norm_fid := normalize_fid fid_score
        let fids := st.fid_scores ++ [fid_score]
        if item.vp.loadRaise then
          { processed_samples := st.processed_samples,
            skipped_samples := st.skipped_samples + 1,
            sample_scores := st.sample_scores ++ [vpZeroEntry item.id],
            fid_scores := fids }
        else if validate_features item.vp.refFeatures item.vp.genFeatures then
          let fvd_score :=
            calculate_fvd (fun _ => item.vp.fvdSqrtm) item.vp.refFeatures item.vp.genFeatures
          let norm_fvd := normalize_fvd fvd_score
          let final_score := (norm_fvd + norm_fid) / 2
          { processed_samples := st.processed_samples + 1,
            skipped_samples := st.skipped_samples,
            sample_scores := st.sample_scores ++
              [{ id := item.id, fvd := fvd_score, norm_fvd := norm_fvd,
                 fid := fid_score, norm_fid := norm_fid, score := final_score }],
            fid_scores := fids }
        else if fid_score ≠ .inf then
          { processed_samples := st.processed_samples + 1,
            skipped_samples := st.skipped_samples,
            sample_scores := st.sample_scores ++
              [{ id := item.id, fvd := .inf, norm_fvd := 0,
                 fid := fid_score, norm_fid := norm_fid, score := norm_fid }],
            fid_scores := fids }
        else
          { processed_samples := st.processed_samples,
            skipped_samples := st.skipped_samples + 1,
            sample_scores := st.sample_scores ++ [vpZeroEntry item.id],
            fid_scores := fids }

/-- The value assembled by process_video_prediction.  The avg_fid and
    avg_norm_fid keys are set only when fid_scores is nonempty. -/
structure VPResults where
  total_samples : ℕ
  processed_samples : ℕ
  skipped_samples : ℕ
  sample_scores : List VPEntry
  fid_scores : List FloatV
  avg_fid : Option FloatV
  avg_norm_fid : Option ℚ
  average_score : ℚ
deriving DecidableEq

/-- process_video_prediction: filters the records whose category equals
    Video prediction, folds the loop body over them, then sets the FID
    summary keys when fid_scores is nonempty and average_score to the mean
    score over all appended entries. -/
def process_video_prediction (data : List VidItem) : VPResults :=
  let vp_data := data.filter (fun item => item.category == "Video prediction")
  let st := vp_data.foldl vpStep ⟨0, 0, [], []⟩
  { total_samples := vp_data.length
    processed_samples := st.processed_samples
    skipped_samples := st.skipped_samples
    sample_scores := st.sample_scores
    fid_scores := st.fid_scores
    avg_fid := if st.fid_scores.isEmpty then none else some (fvMean st.fid_scores)
    avg_norm_fid :=
      if st.fid_scores.isEmpty then none
      else some (qmean (st.fid_scores.map normalize_fid))
    average_score :=
      if st.sample_scores.isEmpty then 0
      else qmean (st.sample_scores.map VPEntry.score) }

/-- Whether one record takes the scored path of process_image_to_video:
    valid item, string output, no raising call, valid FVD features and a
    nonempty CLIP score list. -/
def i2vOk (item : VidItem) : Bool :=
  validate_item item && item.output.asPath.isSome &&
    !(item.i2v.framesRaise || item.i2v.loadRaise) &&
    (validate_features item.i2v.refFeatures item.i2v.genFeatures &&
      !(item.i2v.frameResults.filterMap id).isEmpty)

/-- The entry appended to sample_scores by i2vStep for one record. -/
def i2vEntry (item : VidItem) : I2VEntry :=
  if i2vOk item then
    let fvd_score :=
      calculate_fvd (fun _ => item.i2v.sqrtmResult) item.i2v.refFeatures item.i2v.genFeatures
    let norm_fvd := normalize_fvd fvd_score
    let avg_clip_t := qmean (item.i2v.frameResults.filterMap id)
    { id := item.id, fvd := fvd_score, norm_fvd := norm_fvd,
      clip_t := avg_clip_t, score := (norm_fvd + avg_clip_t) / 2 }
  else i2vZeroEntry item.id

/-- Whether one record takes the scored path of process_text_to_video. -/
def t2vOk (item : VidItem) : Bool :=
  validate_t2v_item item && item.output.asPath.isSome && !item.t2vFramesRaise &&
    !(item.t2vFrameResults.filterMap id).isEmpty

/-- The entry appended to sample_scores by t2vStep for one record. -/
def t2vEntry (item : VidItem) : T2VEntry :=
  if t2vOk item then
    let avg_clip_t := qmean (item.t2vFrameResults.filterMap id)
    { id := item.id, clip_t := avg_clip_t, score := avg_clip_t }
  else t2vZeroEntry item.id

/-- Whether one video_prediction record reaches the FID computation: valid
    item, string output, and no failure in the Inception or frame stage. -/
def vpPre (item : VidItem) : Bool :=
  validate_item item && item.output.asPath.isSome &&
    !(item.vp.incepSourceRaise || item.vp.framesRaise || item.vp.incepFramesRaise)

/-- The FID value computed for one video_prediction record. -/
def vpFid (item : VidItem) : FloatV :=
  calculate_fid (fun _ => item.vp.fidSqrtm) item.vp.refFrameFeatures item.vp.genFrameFeatures

/-- Whether one record takes a processed path of process_video_prediction. -/
def vpOk (item : VidItem) : Bool :=
  vpPre item && !item.vp.loadRaise &&
    (validate_features item.vp.refFeatures item.vp.genFeatures ||
      decide (vpFid item ≠ FloatV.inf))

/-- The entry appended to sample_scores by vpStep for one record. -/
def vpEntry (item : VidItem) : VPEntry :=
  if vpPre item && !item.vp.loadRaise then
    if validate_features item.vp.refFeatures item.vp.genFeatures then
      let fvd_score :=
        calculate_fvd (fun _ => item.vp.fvdSqrtm) item.vp.refFeatures item.vp.genFeatures
      let norm_fvd := normalize_fvd fvd_score
      { id := item.id, fvd := fvd_score, norm_fvd := norm_fvd,
        fid := vpFid item, norm_fid := normalize_fid (vpFid item),
        score := (norm_fvd + normalize_fid (vpFid item)) / 2 }
    else if vpFid item ≠ FloatV.inf then
      { id := item.id, fvd := .inf, norm_fvd := 0,
        fid := vpFid item, norm_fid := normalize_fid (vpFid item),
        score := normalize_fid (vpFid item) }
    else vpZeroEntry item.id
  else vpZeroEntry item.id

/-- The fid_scores contribution of one video_prediction record. -/
def vpFidList (item : VidItem) : List FloatV :=
  if vpPre item then [vpFid item] else []

/-- The (category, result dict) pair appended to the categories defaultdict
    by imgStep for one record, when any. -/
def routedResult (item : ImgItem) : Option (String × List (String × ℚ)) :=
  if item.error ≠ 0 then none
  else
    match outputPath item.output with
    | none => none
    | some _ =>
      if item.category = "Fine-Grained_Image_Reconstruction" then
        if !item.hasDataImage then none
        else
          match evaluate_reconstruction item.recOracle with
          | .ret (some r) => some (item.category, r)
          | _ => none
      else if item.category = "Text-Image_Editing" then
        if !item.hasDataEditedImage then none
        else
          match evaluate_editing item.clipOracle with
          | .ret (some r) => some (item.category, r)
          | _ => none
      else if item.category = "Text-Image_Generation" then
        if !item.hasDataImage then none
        else
          match evaluate_generation item.clipOracle with
          | .ret (some r) => some (item.category, r)
          | _ => none
      else none

/-- Whether imgStep counts one record as skipped. -/
def imgSkip (item : ImgItem) : Bool :=
  if item.error ≠ 0 then true
  else
    match outputPath item.output with
    | none => true
    | some _ =>
      if item.category = "Fine-Grained_Image_Reconstruction" then
        !item.hasDataImage || (evaluate_reconstruction item.recOracle).isRaised
      else if item.category = "Text-Image_Editing" then
        !item.hasDataEditedImage || (evaluate_editing item.clipOracle).isRaised
      else if item.category = "Text-Image_Generation" then
        !item.hasDataImage || (evaluate_generation item.clipOracle).isRaised
      else false

/-- Whether one record reaches its evaluator and that call raises; such a
    record is counted skipped by imgStep without any recorded entry. -/
def imgRaise (item : ImgItem) : Bool :=
  (item.error == 0) && (outputPath item.output).isSome &&
    ((item.category == "Fine-Grained_Image_Reconstruction" && item.hasDataImage &&
        (evaluate_reconstruction item.recOracle).isRaised) ||
     (item.category == "Text-Image_Editing" && item.hasDataEditedImage &&
        (evaluate_editing item.clipOracle).isRaised) ||
     (item.category == "Text-Image_Generation" && item.hasDataImage &&
        (evaluate_generation item.clipOracle).isRaised))

/-- The result dicts appended for one category across a record list: the
    successfully processed records routed to that category, in order. -/
def procList (data : List ImgItem) (c : String) : List (List (String × ℚ)) :=
  ((data.filterMap routedResult).filter (fun p => p.1 == c)).map Prod.snd

/-- The list stored for a key of the categories defaultdict ([] if the key
    is absent). -/
def catList {α : Type} (cats : List (String × List α)) (c : String) : List α :=
  (alookup c cats).getD []

/-- An image to video oracle whose fields are never consulted. -/
def i2vOracleDummy : I2VOracle :=
  { framesRaise := false, frameResults := [], loadRaise := false,
    refFeatures := .d1 [], genFeatures := .d1 [], sqrtmResult := .error () }

/-- A video prediction oracle whose fields are never consulted. -/
def vpOracleDummy : VPOracle :=
  { incepSourceRaise := false, framesRaise := false, incepFramesRaise := false,
    refFrameFeatures := .d1 [], genFrameFeatures := .d1 [], fidSqrtm := .error (),
    loadRaise := false, refFeatures := .d1 [], genFeatures := .d1 [],
    fvdSqrtm := .error () }

/-- A concrete image loop record of a video category: evaluate_image_tasks
    counts it in total_samples but routes it nowhere. -/
def imgItemOther : ImgItem :=
  { category := "Conditional_Image_to_Video_Generation", error := 0,
    output := .str "out.mp4", hasDataImage := true, hasDataEditedImage := true,
    recOracle := { loadOutputOk := true, loadTargetOk := true, callRaise := false,
                   lpipsValue := 0 },
    clipOracle := { loadOutputOk := true, loadTargetOk := true, callRaise := false,
                    cosSim := 0, logitVal := 0 } }

/-- A concrete editing record whose evaluator succeeds with cosine 1/10 and
    logit 20, yielding clip_i = 10, clip_t = 20, score = 15. -/
def imgItemEditOk : ImgItem :=
  { category := "Text-Image_Editing", error := 0, output := .str "a.png",
    hasDataImage := true, hasDataEditedImage := true,
    recOracle := { loadOutputOk := true, loadTargetOk := true, callRaise := false,
                   lpipsValue := 0 },
    clipOracle := { loadOutputOk := true, loadTargetOk := true, callRaise := false,
                    cosSim := 1/10, logitVal := 20 } }

/-- A concrete editing record whose CLIP call raises. -/
def imgItemEditRaise : ImgItem :=
  { category := "Text-Image_Editing", error := 0, output := .str "b.png",
    hasDataImage := true, hasDataEditedImage := true,
    recOracle := { loadOutputOk := true, loadTargetOk := true, callRaise := false,
                   lpipsValue := 0 },
    clipOracle := { loadOutputOk := true, loadTargetOk := true, callRaise := true,
                    cosSim := 0, logitVal := 0 } }

/-- A concrete reconstruction record whose evaluator succeeds with raw
    LPIPS 1/10, yielding a score of 90. -/
def imgItemRecOk : ImgItem :=
  { category := "Fine-Grained_Image_Reconstruction", error := 0, output := .str "c.png",
    hasDataImage := true, hasDataEditedImage := true,
    recOracle := { loadOutputOk := true, loadTargetOk := true, callRaise := false,
                   lpipsValue := 1/10 },
    clipOracle := { loadOutputOk := true, loadTargetOk := true, callRaise := false,
                    cosSim := 0, logitVal := 0 } }

/-- A concrete reconstruction record whose LPIPS call raises. -/
def imgItemRecRaise : ImgItem :=
  { category := "Fine-Grained_Image_Reconstruction", error := 0, output := .str "d.png",
    hasDataImage := true, hasDataEditedImage := true,
    recOracle := { loadOutputOk := true, loadTargetOk := true, callRaise := true,
                   lpipsValue := 0 },
    clipOracle := { loadOutputOk := true, loadTargetOk := true, callRaise := false,
                    cosSim := 0, logitVal := 0 } }

/-- A concrete image loop record carrying a nonzero upstream error flag. -/
def imgItemErr : ImgItem :=
  { category := "Text-Image_Editing", error := 1, output := .str "e.png",
    hasDataImage := true, hasDataEditedImage := true,
    recOracle := { loadOutputOk := true, loadTargetOk := true, callRaise := false,
                   lpipsValue := 0 },
    clipOracle := { loadOutputOk := true, loadTargetOk := true, callRaise := false,
                    cosSim := 0, logitVal := 0 } }

/-- A concrete text to video record with a nonzero upstream error flag but
    otherwise valid fields and one successful CLIP frame score of 1/2. -/
def vidItemT2VErr : VidItem :=
  { id := "t1", category := "Text-to-Video_Generation", error := 1,
    hasData := true, dataHasImage := true, dataHasVideo := true,
    output := .str "gen.mp4", hasTextPrompt := true,
    i2v := i2vOracleDummy, t2vFramesRaise := false,
    t2vFrameResults := [some (1/2)], vp := vpOracleDummy }

/-- A concrete image to video record whose FVD features fail validation
    (one dimensional arrays) while a CLIP frame score of 1/2 is available. -/
def vidItemI2VClipOnly : VidItem :=
  { id := "v1", category := "Conditional_Image_to_Video_Generation", error := 0,
    hasData := true, dataHasImage := true, dataHasVideo := true,
    output := .str "gen.mp4", hasTextPrompt := true,
    i2v := { framesRaise := false, frameResults := [some (1/2)], loadRaise := false,
             refFeatures := .d1 [], genFeatures := .d1 [], sqrtmResult := .error () },
    t2vFramesRaise := false, t2vFrameResults := [], vp := vpOracleDummy }

/-- A concrete video prediction record whose FVD features fail validation
    while the FID value over single row frame features [[1, 2]] and
    [[0, 0]] is the finite distance 5. -/
def vidItemVPFallback : VidItem :=
  { id := "p1", category := "Video prediction", error := 0,
    hasData := true, dataHasImage := true, dataHasVideo := true,
    output := .str "gen.mp4", hasTextPrompt := true,
    i2v := i2vOracleDummy, t2vFramesRaise := false, t2vFrameResults := [],
    vp := { incepSourceRaise := false, framesRaise := false, incepFramesRaise := false,
            refFrameFeatures := .d2 [[1, 2]], genFrameFeatures := .d2 [[0, 0]],
            fidSqrtm := .error (), loadRaise := false,
            refFeatures := .d1 [], genFeatures := .d1 [], fvdSqrtm := .error () } }

/-!  Theorems.  Helper lemmas come first; the claim theorems follow. -/

theorem alookup_append_single_ne {α : Type} (l : List (String × α)) (t : String)
    (v : α) (c : String) (h : c ≠ t) : alookup c (l ++ [(t, v)]) = alookup c l := by
  induction l with
  | nil => simp [alookup, h]
  | cons p rest ih =>
      by_cases hc : c = p.1
      · simp [alookup, hc]
      · simp [alookup, hc, ih]

/-- C7: the shared distance normalization satisfies normalize(0) = 1,
    normalize(d) = 0 for all d at least 1000, antitonicity in the distance,
    range inside the unit interval, and normalize(inf) = 0, following the
    rule clamp(1 - distance/1000, 0, 1). -/
theorem normalize_fvd_spec :
    normalize_fvd (.fin 0) = 1
    ∧ (∀ d : FloatV, FloatV.fle (.fin 1000) d = true → normalize_fvd d = 0)
    ∧ (∀ d1 d2 : FloatV, FloatV.fle d1 d2 = true →
        normalize_fvd d2 ≤ normalize_fvd d1)
    ∧ (∀ d : FloatV, 0 ≤ normalize_fvd d ∧ normalize_fvd d ≤ 1)
    ∧ normalize_fvd .inf = 0 := by
  refine ⟨by norm_num [normalize_fvd], ?_, ?_, ?_, rfl⟩
  · intro d h
    cases d with
    | inf => rfl
    | fin q =>
        simp only [FloatV.fle, decide_eq_true_eq] at h
        have h1 : 1 - q / 1000 ≤ 0 := by linarith
        simp only [normalize_fvd]
        have h2 : min 1 (1 - q / 1000) ≤ 0 := le_trans (min_le_right _ _) h1
        exact max_eq_left h2
  · intro d1 d2 h
    cases d1 with
    | inf =>
        cases d2 with
        | inf => exact le_refl _
        | fin q => simp [FloatV.fle] at h
    | fin a =>
        cases d2 with
        | inf =>
            simp only [normalize_fvd]
            exact le_max_left _ _
        | fin b =>
            simp only [FloatV.fle, decide_eq_true_eq] at h
            simp only [normalize_fvd]
            have hsub : 1 - b / 1000 ≤ 1 - a / 1000 := by
              have : a / 1000 ≤ b / 1000 := by linarith
              linarith
            exact max_le_max (le_refl 0) (min_le_min (le_refl 1) hsub)
  · intro d
    cases d with
    | inf => constructor <;> norm_num [normalize_fvd]
    | fin q =>
        constructor
        · exact le_max_left _ _
        · simp only [normalize_fvd]
          exact max_le (by norm_num) (min_le_left _ _)

/-- Witness for C7 at concrete distances 1500 and the ordered pair
    (200, 600). -/
theorem normalize_fvd_spec_witness :
    normalize_fvd (.fin 1500) = 0
    ∧ normalize_fvd (.fin 600) ≤ normalize_fvd (.fin 200) :=
  ⟨normalize_fvd_spec.2.1 (.fin 1500) (by norm_num [FloatV.fle]),
   normalize_fvd_spec.2.2.1 (.fin 200) (.fin 600) (by norm_num [FloatV.fle])⟩

/-- C9: evaluate_editing and evaluate_generation agree on every input, and
    both compute clip_i = cosine similarity times 100, clip_t = the image
    text logit, and score = their average. -/
theorem editing_generation_agree (o : ClipOracle) :
    evaluate_editing o = evaluate_generation o
    ∧ (o.loadOutputOk = true → o.loadTargetOk = true → o.callRaise = false →
        evaluate_editing o = .ret (some
          [("clip_i", o.cosSim * 100), ("clip_t", o.logitVal),
           ("score", (o.cosSim * 100 + o.logitVal) / 2)])) := by
  constructor
  · rfl
  · intro h1 h2 h3
    simp [evaluate_editing, h1, h2, h3]

/-- Witness for C9 at a concrete oracle: cosine similarity 1/2 and logit
    30 yield clip_i = 50, clip_t = 30, score = 40. -/
theorem editing_generation_agree_witness :
    evaluate_editing ⟨true, true, false, 1/2, 30⟩
      = .ret (some [("clip_i", 50), ("clip_t", 30), ("score", 40)]) := by
  have h := (editing_generation_agree ⟨true, true, false, 1/2, 30⟩).2 rfl rfl rfl
  rw [h]
  norm_num

/-- C10: calculate_fid returns the squared Euclidean distance between the
    feature means, independently of the matrix square root oracle, whenever
    either feature set has exactly one row; any failure of the square root
    routine in the full branch yields inf instead of an exception; and
    calculate_fvd delegates to calculate_fid. -/
theorem calculate_fid_total_single_row
    (s s2 : List (List ℚ) → Except Unit (List (List ℚ))) (r g : NpArr) :
    ((r.reshapeRows.length = 1 ∨ g.reshapeRows.length = 1) →
        calculate_fid s r g = .fin (meanSqDist r.reshapeRows g.reshapeRows)
        ∧ calculate_fid s2 r g = calculate_fid s r g)
    ∧ (¬(r.reshapeRows.length = 1 ∨ g.reshapeRows.length = 1) →
        s (matMul (covm r.reshapeRows) (covm g.reshapeRows)) = .error () →
        calculate_fid s r g = .inf)
    ∧ calculate_fvd s r g = calculate_fid s r g := by
  refine ⟨?_, ?_, rfl⟩
  · intro h
    constructor <;> simp [calculate_fid, h]
  · intro h herr
    simp [calculate_fid, h, herr]

/-- Witness for C10 at single row feature matrices [[1, 2]] and [[0, 0]]
    under an always failing square root oracle: the result is the finite
    squared mean distance 5, not inf. -/
theorem calculate_fid_total_single_row_witness :
    calculate_fid (fun _ => .error ()) (.d2 [[1, 2]]) (.d2 [[0, 0]]) = .fin 5 := by
  have h := (calculate_fid_total_single_row (fun _ => .error ())
    (fun _ => .error ()) (.d2 [[1, 2]]) (.d2 [[0, 0]])).1 (Or.inl rfl)
  rw [h.1]
  norm_num [meanSqDist, colMeans, colSums, NpArr.reshapeRows]

/-- C1: the generation_score produced by calculate_task_scores is the sum
    of the six task scores of the fixed enumerated task list divided by the
    constant 6; the task list is exactly the three image tasks followed by
    the three video tasks; a task absent from the input contributes exactly
    0; and appending a never occurring task name to either input mapping
    leaves the generation_score unchanged. -/
theorem generation_score_fixed_mean (r : TSInput) :
    (calculate_task_scores r).generation_score
        = ((calculate_task_scores r).task_scores.map Prod.snd).sum / 6
    ∧ (calculate_task_scores r).task_scores.map Prod.fst
        = image_task_names ++ video_task_names
    ∧ (∀ t, t ∈ video_task_names → alookup t r.video = none →
        alookup t (calculate_task_scores r).task_scores = some 0)
    ∧ (∀ t, t ∈ image_task_names → alookup t r.category_scores = none →
        alookup t (calculate_task_scores r).task_scores = some 0)
    ∧ (∀ t v, t ∉ video_task_names →
        (calculate_task_scores { r with video := r.video ++ [(t, v)] }).generation_score
          = (calculate_task_scores r).generation_score)
    ∧ (∀ t ms, t ∉ image_task_names →
        (calculate_task_scores
            { r with category_scores := r.category_scores ++ [(t, ms)] }).generation_score
          = (calculate_task_scores r).generation_score) := by
  refine ⟨?_, ?_, ?_, ?_, ?_, ?_⟩
  · cases h : r.image_tasks_present && r.category_scores_present <;>
      simp [calculate_task_scores, image_task_names, video_task_names, h]
  · cases h : r.image_tasks_present && r.category_scores_present <;>
      simp [calculate_task_scores, image_task_names, video_task_names, h]
  · intro t ht hl
    simp only [video_task_names, List.mem_cons] at ht
    rcases ht with rfl | rfl | rfl | h0
    · cases h : r.image_tasks_present && r.category_scores_present <;>
        simp [calculate_task_scores, image_task_names, video_task_names, h, alookup, hl]
    · cases h : r.image_tasks_present && r.category_scores_present <;>
        simp [calculate_task_scores, image_task_names, video_task_names, h, alookup, hl]
    · cases h : r.image_tasks_present && r.category_scores_present <;>
        simp [calculate_task_scores, image_task_names, video_task_names, h, alookup, hl]
    · simp at h0
  · intro t ht hl
    simp only [image_task_names, List.mem_cons] at ht
    rcases ht with rfl | rfl | rfl | h0
    · cases h : r.image_tasks_present && r.category_scores_present <;>
        simp [calculate_task_scores, image_task_names, video_task_names, h, alookup,
          imageTaskScore, hl]
    · cases h : r.image_tasks_present && r.category_scores_present <;>
        simp [calculate_task_scores, image_task_names, video_task_names, h, alookup,
          imageTaskScore, hl]
    · cases h : r.image_tasks_present && r.category_scores_present <;>
        simp [calculate_task_scores, image_task_names, video_task_names, h, alookup,
          imageTaskScore, hl]
    · simp at h0
  · intro t v ht
    have h1 : alookup "image_to_video" (r.video ++ [(t, v)]) = alookup "image_to_video" r.video :=
      alookup_append_single_ne _ _ _ _ (by intro hc; exact ht (by rw [← hc]; simp [video_task_names]))
    have h2 : alookup "text_to_video" (r.video ++ [(t, v)]) = alookup "text_to_video" r.video :=
      alookup_append_single_ne _ _ _ _ (by intro hc; exact ht (by rw [← hc]; simp [video_task_names]))
    have h3 : alookup "video_prediction" (r.video ++ [(t, v)]) = alookup "video_prediction" r.video :=
      alookup_append_single_ne _ _ _ _ (by intro hc; exact ht (by rw [← hc]; simp [video_task_names]))
    cases h : r.image_tasks_present && r.category_scores_present <;>
      simp [calculate_task_scores, image_task_names, video_task_names, h, h1, h2, h3]
  · intro t ms ht
    have h1 : ∀ c, c ∈ image_task_names →
        imageTaskScore (r.category_scores ++ [(t, ms)]) c = imageTaskScore r.category_scores c := by
      intro c hc
      have hne : c ≠ t := by intro hc2; exact ht (hc2 ▸ hc)
      simp [imageTaskScore, alookup_append_single_ne _ _ _ _ hne]
    cases h : r.image_tasks_present && r.category_scores_present <;>
      simp [calculate_task_scores, image_task_names, video_task_names, h,
        h1 _ (by simp [image_task_names] : "Fine-Grained_Image_Reconstruction" ∈ image_task_names),
        h1 _ (by simp [image_task_names] : "Text-Image_Editing" ∈ image_task_names),
        h1 _ (by simp [image_task_names] : "Text-Image_Generation" ∈ image_task_names)]

/-- Witness for C1 at a concrete results dictionary with one image task and
    one video task present: the absent text_to_video task contributes
    exactly 0 to the fixed list. -/
theorem generation_score_fixed_mean_witness :
    alookup "text_to_video"
      (calculate_task_scores
        { image_tasks_present := true, category_scores_present := true,
          category_scores := [("Text-Image_Editing", [("clip_i", 10), ("clip_t", 20)])],
          video := [("image_to_video", some (1/2))] }).task_scores = some 0 :=
  (generation_score_fixed_mean _).2.2.1 "text_to_video"
    (by simp [video_task_names]) (by simp [alookup])

theorem i2vStep_char (st : I2VState) (item : VidItem) :
    i2vStep st item =
      { processed_samples := st.processed_samples + (if i2vOk item then 1 else 0),
        skipped_samples := st.skipped_samples + (if i2vOk item then 0 else 1),
        sample_scores := st.sample_scores ++ [i2vEntry item] } := by
  by_cases h1 : validate_item item
  · cases h2 : item.output.asPath with
    | none => simp [i2vStep, i2vOk, i2vEntry, h1, h2]
    | some p =>
        by_cases h3 : (item.i2v.framesRaise || item.i2v.loadRaise) = true
        · simp [i2vStep, i2vOk, i2vEntry, h1, h2, h3]
        · by_cases h4 : (validate_features item.i2v.refFeatures item.i2v.genFeatures &&
              !(item.i2v.frameResults.filterMap id).isEmpty) = true
          · simp [i2vStep, i2vOk, i2vEntry, h1, h2, h3, h4]
          · simp [i2vStep, i2vOk, i2vEntry, h1, h2, h3, h4]
  · simp [i2vStep, i2vOk, i2vEntry, h1]

theorem i2vFold (l : List VidItem) (st : I2VState) :
    l.foldl i2vStep st =
      { processed_samples := st.processed_samples + l.countP i2vOk,
        skipped_samples := st.skipped_samples + l.countP (fun i => !i2vOk i),
        sample_scores := st.sample_scores ++ l.map i2vEntry } := by
  induction l generalizing st with
  | nil => simp
  | cons a l ih =>
      rw [List.foldl_cons, i2vStep_char, ih]
      by_cases h : i2vOk a <;>
        simp [List.countP_cons, h, List.append_assoc] <;> omega

theorem t2vStep_char (st : T2VState) (item : VidItem) :
    t2vStep st item =
      { processed_samples := st.processed_samples + (if t2vOk item then 1 else 0),
        skipped_samples := st.skipped_samples + (if t2vOk item then 0 else 1),
        sample_scores := st.sample_scores ++ [t2vEntry item] } := by
  by_cases h1 : validate_t2v_item item
  · cases h2 : item.output.asPath with
    | none => simp [t2vStep, t2vOk, t2vEntry, h1, h2]
    | some p =>
        by_cases h3 : item.t2vFramesRaise = true
        · simp [t2vStep, t2vOk, t2vEntry, h1, h2, h3]
        · by_cases h4 : (!(item.t2vFrameResults.filterMap id).isEmpty) = true
          · simp [t2vStep, t2vOk, t2vEntry, h1, h2, h3, h4]
          · simp [t2vStep, t2vOk, t2vEntry, h1, h2, h3, h4]
  · simp [t2vStep, t2vOk, t2vEntry, h1]

theorem t2vFold (l : List VidItem) (st : T2VState) :
    l.foldl t2vStep st =
      { processed_samples := st.processed_samples + l.countP t2vOk,
        skipped_samples := st.skipped_samples + l.countP (fun i => !t2vOk i),
        sample_scores := st.sample_scores ++ l.map t2vEntry } := by
  induction l generalizing st with
  | nil => simp
  | cons a l ih =>
      rw [List.foldl_cons, t2vStep_char, ih]
      by_cases h : t2vOk a <;>
        simp [List.countP_cons, h, List.append_assoc] <;> omega

theorem vpStep_char (st : VPState) (item : VidItem) :
    vpStep st item =
      { processed_samples := st.processed_samples + (if vpOk item then 1 else 0),
        skipped_samples := st.skipped_samples + (if vpOk item then 0 else 1),
        sample_scores := st.sample_scores ++ [vpEntry item],
        fid_scores := st.fid_scores ++ vpFidList item } := by
  by_cases h1 : validate_item item
  · cases h2 : item.output.asPath with
    | none => simp [vpStep, vpOk, vpPre, vpEntry, vpFidList, h1, h2]
    | some p =>
        by_cases h3 : (item.vp.incepSourceRaise || item.vp.framesRaise ||
            item.vp.incepFramesRaise) = true
        · simp [vpStep, vpOk, vpPre, vpEntry, vpFidList, h1, h2, h3]
        · by_cases h4 : item.vp.loadRaise = true
          · simp [vpStep, vpOk, vpPre, vpEntry, vpFidList, vpFid, h1, h2, h3, h4]
          · by_cases h5 : validate_features item.vp.refFeatures item.vp.genFeatures = true
            · simp [vpStep, vpOk, vpPre, vpEntry, vpFidList, vpFid, h1, h2, h3, h4, h5]
            · have hfid : calculate_fid (fun _ => item.vp.fidSqrtm)
                  item.vp.refFrameFeatures item.vp.genFrameFeatures = vpFid item := rfl
              by_cases h6 : vpFid item = FloatV.inf
              · simp [vpStep, vpOk, vpPre, vpEntry, vpFidList, h1, h2, h3, h4, h5, hfid, h6]
              · simp [vpStep, vpOk, vpPre, vpEntry, vpFidList, h1, h2, h3, h4, h5, hfid, h6]
  · simp [vpStep, vpOk, vpPre, vpEntry, vpFidList, h1]

theorem vpFold (l : List VidItem) (st : VPState) :
    l.foldl vpStep st =
      { processed_samples := st.processed_samples + l.countP vpOk,
        skipped_samples := st.skipped_samples + l.countP (fun i => !vpOk i),
        sample_scores := st.sample_scores ++ l.map vpEntry,
        fid_scores := st.fid_scores ++ l.flatMap vpFidList } := by
  induction l generalizing st with
  | nil => simp
  | cons a l ih =>
      rw [List.foldl_cons, vpStep_char, ih]
      by_cases h : vpOk a <;>
        simp [List.countP_cons, h, List.append_assoc] <;> omega

theorem imgStep_char (st : ImgState) (item : ImgItem) :
    imgStep st item =
      { processed_samples :=
          st.processed_samples + (if (routedResult item).isSome then 1 else 0),
        skipped_samples := st.skipped_samples + (if imgSkip item then 1 else 0),
        categories :=
          match routedResult item with
          | none => st.categories
          | some (c, r) => dappend c r st.categories } := by
  by_cases h0 : item.error ≠ 0
  · simp [imgStep, routedResult, imgSkip, h0]
  · cases h1 : outputPath item.output with
    | none => simp [imgStep, routedResult, imgSkip, h0, h1]
    | some p =>
        by_cases h2 : item.category = "Fine-Grained_Image_Reconstruction"
        · by_cases h3 : item.hasDataImage
          · cases h4 : evaluate_reconstruction item.recOracle with
            | raised => simp [imgStep, routedResult, imgSkip, ExcOpt.isRaised, h0, h1, h2, h3, h4]
            | ret o =>
                cases o <;>
                  simp [imgStep, routedResult, imgSkip, ExcOpt.isRaised, h0, h1, h2, h3, h4]
          · simp [imgStep, routedResult, imgSkip, h0, h1, h2, h3]
        · by_cases h5 : item.category = "Text-Image_Editing"
          · by_cases h6 : item.hasDataEditedImage
            · cases h7 : evaluate_editing item.clipOracle with
              | raised =>
                  simp [imgStep, routedResult, imgSkip, ExcOpt.isRaised, h0, h1, h2, h5, h6, h7]
              | ret o =>
                  cases o <;>
                    simp [imgStep, routedResult, imgSkip, ExcOpt.isRaised, h0, h1, h2, h5, h6, h7]
            · simp [imgStep, routedResult, imgSkip, h0, h1, h2, h5, h6]
          · by_cases h8 : item.category = "Text-Image_Generation"
            · by_cases h9 : item.hasDataImage
              · cases h10 : evaluate_generation item.clipOracle with
                | raised =>
                    simp [imgStep, routedResult, imgSkip, ExcOpt.isRaised,
                      h0, h1, h2, h5, h8, h9, h10]
                | ret o =>
                    cases o <;>
                      simp [imgStep, routedResult, imgSkip, ExcOpt.isRaised,
                        h0, h1, h2, h5, h8, h9, h10]
              · simp [imgStep, routedResult, imgSkip, h0, h1, h2, h5, h8, h9]
            · simp [imgStep, routedResult, imgSkip, h0, h1, h2, h5, h8]

theorem alookup_dappend_self {α : Type} (k : String) (v : α)
    (l : List (String × List α)) :
    alookup k (dappend k v l) = some ((alookup k l).getD [] ++ [v]) := by
  induction l with
  | nil => simp [dappend, alookup]
  | cons p rest ih =>
      obtain ⟨k2, vs⟩ := p
      by_cases h : k = k2
      · simp [dappend, alookup, h]
      · simp [dappend, alookup, h, ih]

theorem alookup_dappend_ne {α : Type} (c k : String) (v : α)
    (l : List (String × List α)) (h : c ≠ k) :
    alookup c (dappend k v l) = alookup c l := by
  induction l with
  | nil => simp [dappend, alookup, h]
  | cons p rest ih =>
      obtain ⟨k2, vs⟩ := p
      by_cases h2 : k = k2
      · subst h2
        simp [dappend, alookup, h]
      · by_cases h3 : c = k2
        · simp [dappend, alookup, h2, h3]
        · simp [dappend, alookup, h2, h3, ih]

theorem alookup_eq_none_iff {α : Type} (c : String) (l : List (String × α)) :
    alookup c l = none ↔ c ∉ l.map Prod.fst := by
  induction l with
  | nil => simp [alookup]
  | cons p rest ih =>
      by_cases h : c = p.1
      · simp [alookup, h]
      · simp [alookup, h, ih]

theorem dappend_keys {α : Type} (k : String) (v : α) (l : List (String × List α)) :
    (dappend k v l).map Prod.fst =
      if k ∈ l.map Prod.fst then l.map Prod.fst else l.map Prod.fst ++ [k] := by
  induction l with
  | nil => simp [dappend]
  | cons p rest ih =>
      obtain ⟨k2, vs⟩ := p
      by_cases h : k = k2
      · simp [dappend, h]
      · simp only [dappend, if_neg h, List.map_cons]
        rw [ih]
        by_cases h2 : k ∈ rest.map Prod.fst <;> simp [h2, h, List.mem_cons]

theorem nodup_dappend {α : Type} (k : String) (v : α) (l : List (String × List α))
    (h : (l.map Prod.fst).Nodup) : ((dappend k v l).map Prod.fst).Nodup := by
  rw [dappend_keys]
  by_cases h2 : k ∈ l.map Prod.fst
  · simpa [h2]
  · simp [h2, List.nodup_append, h]

theorem alookup_categoryScores_none (c : String)
    (l : List (String × List (List (String × ℚ)))) (h : alookup c l = none) :
    alookup c (categoryScores l) = none := by
  induction l with
  | nil => simp [categoryScores, alookup]
  | cons p rest ih =>
      obtain ⟨k2, items⟩ := p
      by_cases hc : c = k2
      · simp [alookup, hc] at h
      · simp only [alookup, if_neg hc] at h
        cases hag : aggregateOf items with
        | none => simpa [categoryScores, hag] using ih h
        | some m =>
            simp only [categoryScores, List.filterMap_cons, hag, Option.map_some]
            simpa [alookup, hc, categoryScores] using ih h

theorem categoryScores_lookup (c : String)
    (l : List (String × List (List (String × ℚ))))
    (h : (l.map Prod.fst).Nodup) :
    alookup c (categoryScores l) = aggregateOf (catList l c) := by
  induction l with
  | nil => simp [categoryScores, alookup, catList, aggregateOf]
  | cons p rest ih =>
      obtain ⟨k2, items⟩ := p
      simp only [List.map_cons, List.nodup_cons] at h
      by_cases hc : c = k2
      · subst hc
        have hnone : alookup c rest = none := by
          rw [alookup_eq_none_iff]
          exact h.1
        cases hag : aggregateOf items with
        | none =>
            have h2 : alookup c (categoryScores rest) = none :=
              alookup_categoryScores_none c rest hnone
            have hcs : categoryScores ((c, items) :: rest) = categoryScores rest := by
              simp [categoryScores, List.filterMap_cons, hag]
            have hcat : catList ((c, items) :: rest) c = items := by
              simp [catList, alookup]
            rw [hcs, hcat, hag]
            exact h2
        | some m =>
            simp [categoryScores, List.filterMap_cons, hag, catList, alookup]
      · cases hag : aggregateOf items with
        | none =>
            simpa [categoryScores, List.filterMap_cons, hag, catList, alookup, hc]
              using ih h.2
        | some m =>
            simpa [categoryScores, List.filterMap_cons, hag, catList, alookup, hc]
              using ih h.2

theorem imgFold_counts (l : List ImgItem) (st : ImgState) :
    (l.foldl imgStep st).processed_samples
        = st.processed_samples + l.countP (fun i => (routedResult i).isSome)
    ∧ (l.foldl imgStep st).skipped_samples
        = st.skipped_samples + l.countP imgSkip := by
  induction l generalizing st with
  | nil => simp
  | cons a l ih =>
      rw [List.foldl_cons, imgStep_char]
      refine ⟨?_, ?_⟩
      · rw [(ih _).1]
        cases hr : (routedResult a).isSome <;> simp [List.countP_cons, hr] <;> omega
      · rw [(ih _).2]
        by_cases hs : imgSkip a <;> simp [List.countP_cons, hs] <;> omega

theorem imgFold_catList (l : List ImgItem) (st : ImgState) (c : String) :
    catList ((l.foldl imgStep st).categories) c
      = catList st.categories c ++ procList l c := by
  induction l generalizing st with
  | nil => simp [procList]
  | cons a l ih =>
      rw [List.foldl_cons, imgStep_char]
      cases hr : routedResult a with
      | none =>
          rw [ih]
          simp [procList, List.filterMap_cons, hr]
      | some cr =>
          obtain ⟨c2, r⟩ := cr
          rw [ih]
          by_cases hc : c = c2
          · subst hc
            simp only [procList, List.filterMap_cons, hr, List.filter_cons]
            simp only [catList, alookup_dappend_self]
            simp [catList, List.append_assoc, procList]
          · simp only [procList, List.filterMap_cons, hr, List.filter_cons]
            have : (c2 == c) = false := by simpa using Ne.symm hc
            simp only [this]
            simp [catList, alookup_dappend_ne c c2 r _ hc, procList]

theorem imgFold_nodup (l : List ImgItem) (st : ImgState)
    (h : (st.categories.map Prod.fst).Nodup) :
    (((l.foldl imgStep st).categories).map Prod.fst).Nodup := by
  induction l generalizing st with
  | nil => simpa
  | cons a l ih =>
      rw [List.foldl_cons, imgStep_char]
      cases hr : routedResult a with
      | none => exact ih _ h
      | some cr => exact ih _ (nodup_dappend _ _ _ h)

theorem countP_bool_split {α : Type} (p : α → Bool) (l : List α) :
    l.countP p + l.countP (fun a => !p a) = l.length := by
  induction l with
  | nil => simp
  | cons a l ih =>
      by_cases h : p a <;> simp [List.countP_cons, h] <;> omega

theorem routed_not_skip (item : ImgItem) :
    (routedResult item).isSome = true → imgSkip item = false := by
  intro h
  by_cases h0 : item.error ≠ 0
  · simp [routedResult, h0] at h
  · cases h1 : outputPath item.output with
    | none => simp [routedResult, h0, h1] at h
    | some p =>
        by_cases h2 : item.category = "Fine-Grained_Image_Reconstruction"
        · by_cases h3 : item.hasDataImage
          · cases h4 : evaluate_reconstruction item.recOracle with
            | raised => simp [routedResult, h0, h1, h2, h3, h4] at h
            | ret o =>
                simp [imgSkip, ExcOpt.isRaised, h0, h1, h2, h3, h4]
          · simp [routedResult, h0, h1, h2, h3] at h
        · by_cases h5 : item.category = "Text-Image_Editing"
          · by_cases h6 : item.hasDataEditedImage
            · cases h7 : evaluate_editing item.clipOracle with
              | raised => simp [routedResult, h0, h1, h2, h5, h6, h7] at h
              | ret o =>
                  simp [imgSkip, ExcOpt.isRaised, h0, h1, h2, h5, h6, h7]
            · simp [routedResult, h0, h1, h2, h5, h6] at h
          · by_cases h8 : item.category = "Text-Image_Generation"
            · by_cases h9 : item.hasDataImage
              · cases h10 : evaluate_generation item.clipOracle with
                | raised => simp [routedResult, h0, h1, h2, h5, h8, h9, h10] at h
                | ret o =>
                    simp [imgSkip, ExcOpt.isRaised, h0, h1, h2, h5, h8, h9, h10]
              · simp [routedResult, h0, h1, h2, h5, h8, h9] at h
            · simp [routedResult, h0, h1, h2, h5, h8] at h

theorem countP_add_le {α : Type} (p q : α → Bool) (l : List α)
    (h : ∀ x ∈ l, p x = true → q x = false) :
    l.countP p + l.countP q ≤ l.length := by
  induction l with
  | nil => simp
  | cons a l ih =>
      have hl : ∀ x ∈ l, p x = true → q x = false := fun x hx => h x (by simp [hx])
      by_cases hp : p a
      · have hq : q a = false := h a (by simp) hp
        simp [List.countP_cons, hp, hq]
        have := ih hl
        omega
      · by_cases hq : q a <;> simp [List.countP_cons, hp, hq] <;>
          [skip; exact Nat.le_succ_of_le (ih hl)] <;>
          · have := ih hl
            omega

/-- C5 (amended): for each of the three video task evaluators, total equals
    the matching category count, processed + skipped equals total, and the
    per sample list has exactly one entry per record; for the image task
    evaluator, total equals the full dataset length but processed + skipped
    only satisfies an inequality — a record of unrouted category, or one
    whose evaluator returns None, increments neither counter. -/
theorem counter_invariants :
    (∀ data : List VidItem,
      (process_image_to_video data).total_samples
          = (data.filter
              (fun item => item.category == "Conditional_Image_to_Video_Generation")).length
      ∧ (process_image_to_video data).processed_samples
            + (process_image_to_video data).skipped_samples
          = (process_image_to_video data).total_samples
      ∧ (process_image_to_video data).sample_scores.length
          = (process_image_to_video data).total_samples)
    ∧ (∀ data : List VidItem,
      (process_text_to_video data).total_samples
          = (data.filter (fun item => item.category == "Text-to-Video_Generation")).length
      ∧ (process_text_to_video data).processed_samples
            + (process_text_to_video data).skipped_samples
          = (process_text_to_video data).total_samples
      ∧ (process_text_to_video data).sample_scores.length
          = (process_text_to_video data).total_samples)
    ∧ (∀ data : List VidItem,
      (process_video_prediction data).total_samples
          = (data.filter (fun item => item.category == "Video prediction")).length
      ∧ (process_video_prediction data).processed_samples
            + (process_video_prediction data).skipped_samples
          = (process_video_prediction data).total_samples
      ∧ (process_video_prediction data).sample_scores.length
          = (process_video_prediction data).total_samples)
    ∧ (∀ data : List ImgItem,
      (evaluate_image_tasks data).total_samples = data.length
      ∧ (evaluate_image_tasks data).processed_samples
            + (evaluate_image_tasks data).skipped_samples ≤ data.length) := by
  refine ⟨?_, ?_, ?_, ?_⟩
  · intro data
    refine ⟨rfl, ?_, ?_⟩
    · simp [process_image_to_video, i2vFold]
      exact countP_bool_split i2vOk _
    · simp [process_image_to_video, i2vFold]
  · intro data
    refine ⟨rfl, ?_, ?_⟩
    · simp [process_text_to_video, t2vFold]
      exact countP_bool_split t2vOk _
    · simp [process_text_to_video, t2vFold]
  · intro data
    refine ⟨rfl, ?_, ?_⟩
    · simp [process_video_prediction, vpFold]
      exact countP_bool_split vpOk _
    · simp [process_video_prediction, vpFold]
  · intro data
    refine ⟨rfl, ?_⟩
    have h1 := (imgFold_counts data ⟨0, 0, []⟩).1
    have h2 := (imgFold_counts data ⟨0, 0, []⟩).2
    simp at h1 h2
    have h3 := countP_add_le (fun i => (routedResult i).isSome) imgSkip data
      (fun x _ => routed_not_skip x)
    simp only [evaluate_image_tasks]
    rw [h1, h2]
    omega

/-- Counterexample for C5: a single record whose category routes nowhere in
    the image task loop (here a video category present in the same dataset)
    is counted in total_samples but in neither processed_samples nor
    skipped_samples, so processed + skipped differs from total and no per
    sample result is recorded for it. -/
theorem counters_not_conserved_image_cex :
    (evaluate_image_tasks [imgItemOther]).total_samples = 1
    ∧ (evaluate_image_tasks [imgItemOther]).processed_samples = 0
    ∧ (evaluate_image_tasks [imgItemOther]).skipped_samples = 0
    ∧ (evaluate_image_tasks [imgItemOther]).categories = [] := by
  refine ⟨rfl, ?_, ?_, ?_⟩ <;>
    simp [evaluate_image_tasks, imgStep, imgItemOther, outputPath]

/-- C2 (amended): each video task average_score is the arithmetic mean of
    the per sample scores over the full filtered record sequence, zero
    filled skipped entries included, with exactly one entry per record; the
    image task per category aggregates are instead the means over only the
    successfully processed result dicts of each category — skipped and
    failed records contribute no zero filled entry there. -/
theorem aggregate_mean_policy :
    (∀ data : List VidItem,
      (process_image_to_video data).sample_scores
          = (data.filter
              (fun item => item.category == "Conditional_Image_to_Video_Generation")).map i2vEntry
      ∧ ((process_image_to_video data).sample_scores ≠ [] →
          (process_image_to_video data).average_score
            = qmean ((process_image_to_video data).sample_scores.map I2VEntry.score)))
    ∧ (∀ data : List VidItem,
      (process_text_to_video data).sample_scores
          = (data.filter (fun item => item.category == "Text-to-Video_Generation")).map t2vEntry
      ∧ ((process_text_to_video data).sample_scores ≠ [] →
          (process_text_to_video data).average_score
            = qmean ((process_text_to_video data).sample_scores.map T2VEntry.score)))
    ∧ (∀ data : List VidItem,
      (process_video_prediction data).sample_scores
          = (data.filter (fun item => item.category == "Video prediction")).map vpEntry
      ∧ ((process_video_prediction data).sample_scores ≠ [] →
          (process_video_prediction data).average_score
            = qmean ((process_video_prediction data).sample_scores.map VPEntry.score)))
    ∧ (∀ (data : List ImgItem) (c : String),
        alookup c (evaluate_image_tasks data).category_scores
          = aggregateOf (procList data c)) := by
  refine ⟨?_, ?_, ?_, ?_⟩
  · intro data
    constructor
    · simp [process_image_to_video, i2vFold]
    · intro h
      simp only [process_image_to_video, i2vFold] at h ⊢
      simp only [List.nil_append] at h ⊢
      rw [if_neg (by simpa [List.isEmpty_iff] using h)]
  · intro data
    constructor
    · simp [process_text_to_video, t2vFold]
    · intro h
      simp only [process_text_to_video, t2vFold] at h ⊢
      simp only [List.nil_append] at h ⊢
      rw [if_neg (by simpa [List.isEmpty_iff] using h)]
  · intro data
    constructor
    · simp [process_video_prediction, vpFold]
    · intro h
      simp only [process_video_prediction, vpFold] at h ⊢
      simp only [List.nil_append] at h ⊢
      rw [if_neg (by simpa [List.isEmpty_iff] using h)]
  · intro data c
    have hnodup : (((data.foldl imgStep ⟨0, 0, []⟩).categories).map Prod.fst).Nodup :=
      imgFold_nodup data ⟨0, 0, []⟩ (by simp)
    have hcat : catList ((data.foldl imgStep ⟨0, 0, []⟩).categories) c = procList data c := by
      rw [imgFold_catList]
      simp [catList, alookup]
    simp only [evaluate_image_tasks]
    rw [categoryScores_lookup c _ hnodup, hcat]

/-- Witness for C2 (amended part) at a concrete one record text to video
    dataset: the average_score is the mean over the full entry list, here
    the single CLIP score 1/2. -/
theorem aggregate_mean_policy_witness :
    (process_text_to_video [vidItemT2VErr]).average_score = 1/2 := by
  have hs := (aggregate_mean_policy.2.1 [vidItemT2VErr]).1
  have h := (aggregate_mean_policy.2.1 [vidItemT2VErr]).2
    (by rw [hs]; simp [vidItemT2VErr])
  rw [h, hs]
  norm_num [t2vEntry, t2vOk, validate_t2v_item, vidItemT2VErr, PyOutput.present,
    PyOutput.asPath, qmean, List.filterMap_cons, List.filterMap_nil]

/-- Counterexample for C2: two editing records, one processed (clip_i 10,
    clip_t 20, score 15) and one whose CLIP call raises.  The reported
    clip_i aggregate is 10, the mean over the single processed record only;
    the zero filled mean over the full two record sequence demanded by the
    claim would be (10 + 0)/2 = 5. -/
theorem image_aggregate_excludes_skipped_cex :
    (evaluate_image_tasks [imgItemEditOk, imgItemEditRaise]).total_samples = 2
    ∧ (evaluate_image_tasks [imgItemEditOk, imgItemEditRaise]).skipped_samples = 1
    ∧ alookup "Text-Image_Editing"
        (evaluate_image_tasks [imgItemEditOk, imgItemEditRaise]).category_scores
        = some [("clip_i", 10), ("clip_t", 20), ("score", 15)]
    ∧ (10 : ℚ) ≠ (10 + 0) / 2 := by
  refine ⟨rfl, ?_, ?_, by norm_num⟩
  · simp [evaluate_image_tasks, imgStep, imgItemEditOk, imgItemEditRaise,
      evaluate_editing, outputPath]
  · norm_num [evaluate_image_tasks, imgStep, imgItemEditOk, imgItemEditRaise,
      evaluate_editing, outputPath, dappend, categoryScores, aggregateOf, alookup, qmean]
    simp

/-- C4 (amended): in the image task loop a record with a nonzero error flag
    is counted skipped before any routing, field access or metric call (the
    resulting state is independent of every oracle field), and no per
    sample entry is recorded for it; in the three video task loops the
    error flag is never consulted — changing it changes nothing. -/
theorem error_flag_policy :
    (∀ (st : ImgState) (item : ImgItem), item.error ≠ 0 →
        imgStep st item = { st with skipped_samples := st.skipped_samples + 1 })
    ∧ (∀ (st : I2VState) (item : VidItem) (e : Int),
        i2vStep st { item with error := e } = i2vStep st item)
    ∧ (∀ (st : T2VState) (item : VidItem) (e : Int),
        t2vStep st { item with error := e } = t2vStep st item)
    ∧ (∀ (st : VPState) (item : VidItem) (e : Int),
        vpStep st { item with error := e } = vpStep st item) := by
  refine ⟨?_, ?_, ?_, ?_⟩
  · intro st item h
    simp [imgStep, h]
  · intro st item e
    cases item
    rfl
  · intro st item e
    cases item
    rfl
  · intro st item e
    cases item
    rfl

/-- Witness for C4 (amended part): a concrete record with error = 1 is
    counted skipped by the image loop and nothing is appended. -/
theorem error_flag_policy_witness :
    imgStep ⟨0, 0, []⟩ imgItemErr = ⟨0, 1, []⟩ :=
  error_flag_policy.1 ⟨0, 0, []⟩ imgItemErr (by decide)

/-- Counterexample for C4: a text to video record with error = 1 but valid
    fields is evaluated normally — it is counted processed with the nonzero
    CLIP score 1/2, not skipped with score 0. -/
theorem error_flag_ignored_video_cex :
    vidItemT2VErr.error = 1
    ∧ (process_text_to_video [vidItemT2VErr]).processed_samples = 1
    ∧ (process_text_to_video [vidItemT2VErr]).skipped_samples = 0
    ∧ (process_text_to_video [vidItemT2VErr]).sample_scores
        = [{ id := "t1", clip_t := 1/2, score := 1/2 }] := by
  refine ⟨rfl, rfl, rfl, ?_⟩
  norm_num [process_text_to_video, t2vStep, validate_t2v_item, vidItemT2VErr,
    i2vOracleDummy, vpOracleDummy, PyOutput.present, PyOutput.asPath, qmean,
    List.filterMap_cons, List.filterMap_nil]

/-- C6 (amended): when the FVD feature validation of an image to video
    record fails (or no CLIP frame score is available), the record is
    recorded as skipped with fvd = inf, norm_fvd = 0, clip_t = 0 and
    score = 0 — any available frame text similarity scores are discarded
    rather than incorporated. -/
theorem i2v_invalid_features_zero (st : I2VState) (item : VidItem)
    (h1 : validate_item item = true)
    (h2 : item.output.asPath.isSome = true)
    (h3 : (item.i2v.framesRaise || item.i2v.loadRaise) = false)
    (h4 : (validate_features item.i2v.refFeatures item.i2v.genFeatures &&
        !(item.i2v.frameResults.filterMap id).isEmpty) = false) :
    i2vStep st item =
      { processed_samples := st.processed_samples,
        skipped_samples := st.skipped_samples + 1,
        sample_scores := st.sample_scores ++ [i2vZeroEntry item.id] } := by
  obtain ⟨p, hp⟩ := Option.isSome_iff_exists.mp h2
  simp [i2vStep, h1, hp, h3, h4]

/-- Witness for C6 (amended): the concrete record with invalid features and
    an available CLIP score of 1/2 yields the zero entry, skipped. -/
theorem i2v_invalid_features_zero_witness :
    i2vStep ⟨0, 0, []⟩ vidItemI2VClipOnly = ⟨0, 1, [i2vZeroEntry "v1"]⟩ :=
  i2v_invalid_features_zero ⟨0, 0, []⟩ vidItemI2VClipOnly rfl rfl rfl rfl

/-- Counterexample for C6: for a record with degenerate FVD features and an
    available frame text similarity score of 1/2, the claim says the score
    incorporates the clip_t term; the code records clip_t = 0 and score = 0
    and counts the sample skipped. -/
theorem i2v_clip_discarded_cex :
    vidItemI2VClipOnly.i2v.frameResults.filterMap id = [1/2]
    ∧ validate_features vidItemI2VClipOnly.i2v.refFeatures
        vidItemI2VClipOnly.i2v.genFeatures = false
    ∧ (process_image_to_video [vidItemI2VClipOnly]).sample_scores
        = [{ id := "v1", fvd := .inf, norm_fvd := 0, clip_t := 0, score := 0 }]
    ∧ (process_image_to_video [vidItemI2VClipOnly]).skipped_samples = 1 := by
  refine ⟨rfl, rfl, ?_, rfl⟩
  simp [process_image_to_video, i2vStep, vidItemI2VClipOnly, validate_item,
    PyOutput.present, PyOutput.asPath, validate_features, i2vZeroEntry]

/-- C8 (amended): a raising metric or frame call is caught at sample
    granularity everywhere and never aborts the run — each record
    contributes to the counters independently of every other record; in the
    three video loops the failing sample is recorded as a zero score entry
    with worst case metrics (distances inf, similarities 0) and counted
    skipped; in the image loop the failing sample is only counted skipped,
    with no per sample entry recorded. -/
theorem failure_isolation :
    (∀ (st : ImgState) (item : ImgItem), imgRaise item = true →
        imgStep st item = { st with skipped_samples := st.skipped_samples + 1 })
    ∧ (∀ (st : I2VState) (item : VidItem),
        validate_item item = true → item.output.asPath.isSome = true →
        (item.i2v.framesRaise || item.i2v.loadRaise) = true →
        i2vStep st item =
          { processed_samples := st.processed_samples,
            skipped_samples := st.skipped_samples + 1,
            sample_scores := st.sample_scores ++ [i2vZeroEntry item.id] })
    ∧ (∀ (st : T2VState) (item : VidItem),
        validate_t2v_item item = true → item.output.asPath.isSome = true →
        item.t2vFramesRaise = true →
        t2vStep st item =
          { processed_samples := st.processed_samples,
            skipped_samples := st.skipped_samples + 1,
            sample_scores := st.sample_scores ++ [t2vZeroEntry item.id] })
    ∧ (∀ (st : VPState) (item : VidItem),
        validate_item item = true → item.output.asPath.isSome = true →
        (item.vp.incepSourceRaise || item.vp.framesRaise || item.vp.incepFramesRaise) = true →
        vpStep st item =
          { processed_samples := st.processed_samples,
            skipped_samples := st.skipped_samples + 1,
            sample_scores := st.sample_scores ++ [vpZeroEntry item.id],
            fid_scores := st.fid_scores })
    ∧ (∀ data : List ImgItem,
        (evaluate_image_tasks data).processed_samples
            = data.countP (fun i => (routedResult i).isSome)
        ∧ (evaluate_image_tasks data).skipped_samples = data.countP imgSkip)
    ∧ (∀ data : List VidItem,
        (process_image_to_video data).processed_samples
          = (data.filter
              (fun item => item.category == "Conditional_Image_to_Video_Generation")).countP
              i2vOk) := by
  refine ⟨?_, ?_, ?_, ?_, ?_, ?_⟩
  · intro st item h
    simp only [imgRaise, Bool.and_eq_true, Bool.or_eq_true, beq_iff_eq] at h
    obtain ⟨⟨herr, hout⟩, hcase⟩ := h
    obtain ⟨p, hp⟩ := Option.isSome_iff_exists.mp hout
    have herr2 : ¬item.error ≠ 0 := by simp [herr]
    rcases hcase with (⟨⟨hcat, hdat⟩, hev⟩ | ⟨⟨hcat, hdat⟩, hev⟩) | ⟨⟨hcat, hdat⟩, hev⟩
    · cases h4 : evaluate_reconstruction item.recOracle with
      | raised => simp [imgStep, herr2, hp, hcat, hdat, h4]
      | ret o => simp [h4, ExcOpt.isRaised] at hev
    · cases h4 : evaluate_editing item.clipOracle with
      | raised =>
          have hcat2 : ¬item.category = "Fine-Grained_Image_Reconstruction" := by
            rw [hcat]; decide
          simp [imgStep, herr2, hp, hcat, hcat2, hdat, h4]
      | ret o => simp [h4, ExcOpt.isRaised] at hev
    · cases h4 : evaluate_generation item.clipOracle with
      | raised =>
          have hcat2 : ¬item.category = "Fine-Grained_Image_Reconstruction" := by
            rw [hcat]; decide
          have hcat3 : ¬item.category = "Text-Image_Editing" := by
            rw [hcat]; decide
          simp [imgStep, herr2, hp, hcat, hcat2, hcat3, hdat, h4]
      | ret o => simp [h4, ExcOpt.isRaised] at hev
  · intro st item h1 h2 h3
    obtain ⟨p, hp⟩ := Option.isSome_iff_exists.mp h2
    simp [i2vStep, h1, hp, h3]
  · intro st item h1 h2 h3
    obtain ⟨p, hp⟩ := Option.isSome_iff_exists.mp h2
    simp [t2vStep, h1, hp, h3]
  · intro st item h1 h2 h3
    obtain ⟨p, hp⟩ := Option.isSome_iff_exists.mp h2
    simp [vpStep, h1, hp, h3]
  · intro data
    have h := imgFold_counts data ⟨0, 0, []⟩
    simp at h
    exact ⟨h.1, h.2⟩
  · intro data
    simp [process_image_to_video, i2vFold]

/-- Witness for C8 at two concrete records: a reconstruction record whose
    LPIPS call raises is counted skipped by the image loop with nothing
    appended, and an image to video record whose frame extraction raises is
    recorded as a zero entry and counted skipped. -/
theorem failure_isolation_witness :
    imgStep ⟨0, 0, []⟩ imgItemRecRaise = ⟨0, 1, []⟩ :=
  failure_isolation.1 ⟨0, 0, []⟩ imgItemRecRaise (by decide)

/-- Counterexample for C8: for the record sequence [raising, succeeding]
    the raising record is not recorded with worst case metric values — the
    only recorded result dict belongs to the succeeding record (score 90),
    while the raising record is merely counted in skipped_samples. -/
theorem image_failure_not_recorded_cex :
    (evaluate_image_tasks [imgItemRecRaise, imgItemRecOk]).skipped_samples = 1
    ∧ (evaluate_image_tasks [imgItemRecRaise, imgItemRecOk]).processed_samples = 1
    ∧ (evaluate_image_tasks [imgItemRecRaise, imgItemRecOk]).categories
        = [("Fine-Grained_Image_Reconstruction", [[("lpips", 90), ("score", 90)]])] := by
  refine ⟨?_, ?_, ?_⟩ <;>
    norm_num [evaluate_image_tasks, imgStep, imgItemRecRaise, imgItemRecOk,
      evaluate_reconstruction, outputPath, dappend]

/-- C3: for every video prediction record that passes validation with a
    string output and no raising stage, the sample score is the average of
    the normalized FID and normalized FVD values and the sample is counted
    processed; when the FVD features fail validation but the FID value is
    finite, the score falls back to the normalized FID value alone and the
    sample is still counted processed. -/
theorem video_prediction_score_rule (st : VPState) (item : VidItem)
    (h1 : validate_item item = true)
    (h2 : item.output.asPath.isSome = true)
    (h3 : (item.vp.incepSourceRaise || item.vp.framesRaise || item.vp.incepFramesRaise) = false)
    (h4 : item.vp.loadRaise = false) :
    (validate_features item.vp.refFeatures item.vp.genFeatures = true →
      vpStep st item =
        { processed_samples := st.processed_samples + 1,
          skipped_samples := st.skipped_samples,
          sample_scores := st.sample_scores ++
            [{ id := item.id,
               fvd := calculate_fvd (fun _ => item.vp.fvdSqrtm)
                 item.vp.refFeatures item.vp.genFeatures,
               norm_fvd := normalize_fvd (calculate_fvd (fun _ => item.vp.fvdSqrtm)
                 item.vp.refFeatures item.vp.genFeatures),
               fid := vpFid item, norm_fid := normalize_fid (vpFid item),
               score := (normalize_fvd (calculate_fvd (fun _ => item.vp.fvdSqrtm)
                   item.vp.refFeatures item.vp.genFeatures)
                 + normalize_fid (vpFid item)) / 2 }],
          fid_scores := st.fid_scores ++ [vpFid item] })
    ∧ (validate_features item.vp.refFeatures item.vp.genFeatures = false →
        vpFid item ≠ FloatV.inf →
      vpStep st item =
        { processed_samples := st.processed_samples + 1,
          skipped_samples := st.skipped_samples,
          sample_scores := st.sample_scores ++
            [{ id := item.id, fvd := .inf, norm_fvd := 0,
               fid := vpFid item, norm_fid := normalize_fid (vpFid item),
               score := normalize_fid (vpFid item) }],
          fid_scores := st.fid_scores ++ [vpFid item] }) := by
  obtain ⟨p, hp⟩ := Option.isSome_iff_exists.mp h2
  have hfid : calculate_fid (fun _ => item.vp.fidSqrtm)
      item.vp.refFrameFeatures item.vp.genFrameFeatures = vpFid item := rfl
  constructor
  · intro hvf
    simp [vpStep, h1, hp, h3, h4, hvf, hfid]
  · intro hvf hne
    simp [vpStep, h1, hp, h3, h4, hvf, hfid, hne]

/-- Witness for C3 at a concrete record taking the FID fallback branch: the
    FID value over [[1, 2]] and [[0, 0]] is 5, its normalization is
    199/200, and the sample is processed with that score alone. -/
theorem video_prediction_score_rule_witness :
    vpStep ⟨0, 0, [], []⟩ vidItemVPFallback =
      { processed_samples := 1, skipped_samples := 0,
        sample_scores :=
          [{ id := "p1", fvd := .inf, norm_fvd := 0,
             fid := .fin 5, norm_fid := 199/200, score := 199/200 }],
        fid_scores := [FloatV.fin 5] } := by
  have hfid : vpFid vidItemVPFallback = FloatV.fin 5 := by
    norm_num [vpFid, vidItemVPFallback, calculate_fid, NpArr.reshapeRows,
      meanSqDist, colMeans, colSums]
  have h := (video_prediction_score_rule ⟨0, 0, [], []⟩ vidItemVPFallback
      rfl rfl rfl rfl).2 rfl (by rw [hfid]; intro hc; cases hc)
  rw [h, hfid]
  norm_num [normalize_fid, normalize_fvd, vidItemVPFallback]

end MME
